import Mathlib

/-
Shallow embedding of the Ai-Email-Assistant backend core
(src/backend/routers/chat.py, src/backend/services/nlp_service.py,
src/backend/services/gemini_service.py, src/backend/services/gmail_service.py).

Python strings are modelled as Lean String values; where regular-expression
scanning matters the character list (List Char) view is used.  Python dict
access email.get(k) becomes an Option-typed field, email[k] a required field.
Fallible provider calls return Except String, mirroring raised exceptions.
External collaborators (the Gmail API transport, the Gemini model, the
standard-library JSON and RFC-2822 date parsers) are passed in as function
parameters: the embedding covers exactly the code this repository owns.
-/

namespace EmailAssistant

/-! ## Python-semantics helpers -/

/-- Truthiness of an optional integer (Python: None and 0 are falsy). -/
def pyTruthyNat : Option Nat → Bool
  | none => false
  | some n => n != 0

/-- Python `a or b` on strings (empty string is falsy). -/
def pyOrS (a b : String) : String := if a = "" then b else a

/-- Python str.strip on a character list: drop whitespace at both ends. -/
def pyStrip (l : List Char) : List Char :=
  ((l.dropWhile Char.isWhitespace).reverse.dropWhile Char.isWhitespace).reverse

/-- Python str.lower on a character list (ASCII case folding). -/
def strLowerList (l : List Char) : List Char := l.map Char.toLower

/-- Python str.lower on a string. -/
def strLower (s : String) : String := String.mk (strLowerList s.toList)

/-- Python substring containment (the `in` operator on str), on character
lists: pat occurs contiguously somewhere in the text. -/
def containsSub (pat : List Char) : List Char → Bool
  | [] => pat.isEmpty
  | c :: rest => pat.isPrefixOf (c :: rest) || containsSub pat rest

/-- Python str.replace(pat, rep): replace every non-overlapping occurrence,
scanning left to right.  Fuelled structural recursion; `replaceFrom` below
supplies fuel equal to the input length, which is always sufficient. -/
def replaceFromAux (pat rep : List Char) : Nat → List Char → List Char
  | _, [] => []
  | 0, l => l
  | Nat.succ f, c :: rest =>
    if pat ≠ [] ∧ pat.isPrefixOf (c :: rest) then
      rep ++ replaceFromAux pat rep f (rest.drop (pat.length - 1))
    else
      c :: replaceFromAux pat rep f rest

/-- Python str.replace(pat, rep) on character lists. -/
def replaceFrom (pat rep l : List Char) : List Char := replaceFromAux pat rep l.length l

/-! ## NLPService (src/backend/services/nlp_service.py) -/

/-- Numeric value of a digit run (Python int() on a decimal string). -/
def digitsToNat (l : List Char) : Nat :=
  l.foldl (fun a c => a * 10 + (c.toNat - '0'.toNat)) 0

/-- re.search of the pattern hash-then-digits over a character list: at each
position, a literal # followed by a greedy nonempty digit run matches;
the leftmost match wins. -/
def matchHash : List Char → Option Nat
  | [] => none
  | c :: rest =>
    if c = '#' then
      let ds := rest.takeWhile Char.isDigit
      if ds ≠ [] then some (digitsToNat ds) else matchHash rest
    else matchHash rest

/-- re.search of a literal word followed by one-or-more whitespace and a
nonempty digit run (patterns "number N", "email N", "message N");
the leftmost match wins. -/
def matchWordNum (w : List Char) : List Char → Option Nat
  | [] => none
  | c :: rest =>
    (if w.isPrefixOf (c :: rest) then
      let after := (c :: rest).drop w.length
      let ws := after.takeWhile Char.isWhitespace
      let ds := (after.drop ws.length).takeWhile Char.isDigit
      if ws ≠ [] ∧ ds ≠ [] then some (digitsToNat ds) else none
    else none).orElse (fun _ => matchWordNum w rest)

/-- The spelled-out word table of NLPService.extract_email_number, in Python
dict insertion order. -/
def wordToNum : List (List Char × Nat) :=
  [("first".toList, 1), ("second".toList, 2), ("third".toList, 3),
   ("fourth".toList, 4), ("fifth".toList, 5),
   ("one".toList, 1), ("two".toList, 2), ("three".toList, 3),
   ("four".toList, 4), ("five".toList, 5)]

/-- NLPService.extract_email_number: regex patterns #N, "number N", "email N",
"message N" tried in that order over the lowercased text, then the word
table as substring tests in dict order. -/
def extract_email_number (text : String) : Option Nat :=
  let l := strLowerList text.toList
  (((matchHash l).orElse
    (fun _ => matchWordNum "number".toList l)).orElse
    (fun _ => (matchWordNum "email".toList l).orElse
      (fun _ => matchWordNum "message".toList l))).orElse
    (fun _ => wordToNum.findSome? (fun p => if containsSub p.1 l then some p.2 else none))

/-- Character class of the regex token backslash-w extended with dot and
hyphen, as in the email-address pattern of NLPService.extract_sender
(ASCII approximation of the unicode word class). -/
def isWordChar (c : Char) : Bool := c.isAlphanum || c = '_' || c = '.' || c = '-'

/-- re.search of the email-address pattern (word-chars, at-sign, word-chars)
with greedy runs; the leftmost match wins. -/
def findEmailTok : List Char → Option (List Char)
  | [] => none
  | c :: rest =>
    (if isWordChar c then
      let run1 := (c :: rest).takeWhile isWordChar
      match (c :: rest).drop run1.length with
      | '@' :: rest2 =>
        let run2 := rest2.takeWhile isWordChar
        if run2 ≠ [] then some (run1 ++ '@' :: run2) else none
      | _ => none
    else none).orElse (fun _ => findEmailTok rest)

/-- One capitalized word: an ASCII uppercase letter followed by a nonempty
greedy lowercase run.  Returns the word and the remaining characters. -/
def capWord : List Char → Option (List Char × List Char)
  | [] => none
  | c :: rest =>
    if c.isUpper then
      let lows := rest.takeWhile Char.isLower
      if lows ≠ [] then some (c :: lows, rest.drop lows.length) else none
    else none

/-- re.search of keyword, whitespace, capitalized name with an optional
second capitalized word (the "from NAME" patterns of extract_sender);
the group spans both words and the whitespace between them. -/
def nameAfterKw (kw : List Char) : List Char → Option (List Char)
  | [] => none
  | c :: rest =>
    (if kw.isPrefixOf (c :: rest) then
      let after := (c :: rest).drop kw.length
      let ws := after.takeWhile Char.isWhitespace
      if ws = [] then none
      else
        match capWord (after.drop ws.length) with
        | some (w1, rest1) =>
          let ws2 := rest1.takeWhile Char.isWhitespace
          if ws2 ≠ [] then
            match capWord (rest1.drop ws2.length) with
            | some (w2, _) => some (w1 ++ ws2 ++ w2)
            | none => some w1
          else some w1
        | none => none
    else none).orElse (fun _ => nameAfterKw kw rest)

/-- NLPService.extract_sender: first the email-address pattern over the raw
text, then the capitalized-name patterns after "from", "by", "sender". -/
def extract_sender (text : String) : Option String :=
  match findEmailTok text.toList with
  | some m => some (String.mk m)
  | none =>
    match nameAfterKw "from".toList text.toList with
    | some m => some (String.mk m)
    | none =>
      match nameAfterKw "by".toList text.toList with
      | some m => some (String.mk m)
      | none =>
        match nameAfterKw "sender".toList text.toList with
        | some m => some (String.mk m)
        | none => none

/-- Sanity evaluation of the sender extractor on the two source docstring
examples and a non-matching command. -/
theorem extract_sender_examples :
    extract_sender "from john@example.com" = some "john@example.com" ∧
    extract_sender "sent by John Smith" = some "John Smith" ∧
    extract_sender "reply" = none := by
  repeat constructor <;> decide

/-! ## Data model

RawEmail mirrors the dictionary produced by GmailService._get_email_details:
the id key is accessed with square brackets in chat.py (required), every
other key is read with .get (optional). -/

structure RawEmail where
  id : String
  thread_id : Option String
  subject : Option String
  sender : Option String
  sender_name : Option String
  sender_email : Option String
  date : Option String
  body : Option String
  snippet : Option String
  unread : Option Bool
  deriving Repr, DecidableEq

/-- The sender object of the display schema built by
format_email_for_display. -/
structure SenderInfo where
  name : String
  email : String
  deriving Repr, DecidableEq

/-- DisplayEmail mirrors the dictionary built by format_email_for_display;
the summary, category, body and replyText keys are added later by the
enrichment handlers, so they are optional here. -/
structure DisplayEmail where
  id : String
  subject : String
  sender : SenderInfo
  date : String
  timestamp : Option String
  snippet : String
  isRead : Bool
  summary : Option String
  category : Option String
  body : Option String
  replyText : Option String
  deriving Repr, DecidableEq

/-- Free-form action payload: the union of the payload keys used across
chat.py.  senderObj is the sender dictionary attached by
prepare_reply_actions, senderName the plain name string attached by the
reply handlers. -/
structure Payload where
  replyText : Option String
  subject : Option String
  senderName : Option String
  senderObj : Option SenderInfo
  emailIds : Option (List String)
  emails : Option (List DisplayEmail)
  deriving Repr, DecidableEq

/-- The empty payload dictionary. -/
def Payload.empty : Payload :=
  { replyText := none, subject := none, senderName := none,
    senderObj := none, emailIds := none, emails := none }

/-- An action button attached to a response (chat.py builds these as
dictionaries; the confirmation keys are only present on destructive
actions, false and none stand for absent keys). -/
structure ActionItem where
  id : String
  type : String
  label : String
  emailId : Option String
  payload : Payload
  requiresConfirmation : Bool
  confirmTitle : Option String
  confirmDescription : Option String
  confirmLabel : Option String
  cancelLabel : Option String
  deriving Repr, DecidableEq

/-- The response envelope of create_response.  The uuid id and the creation
timestamp of the Python dictionary are environment effects (uuid4, clock)
outside the embedded logic and are not modelled; every claim concerns the
content, emails and actions fields. -/
structure Response where
  content : String
  emails : List DisplayEmail
  actions : List ActionItem
  deriving Repr, DecidableEq

/-- Failures escaping a handler: an explicit HTTPException or a plain
raised exception message (converted to a 500 at the endpoint boundary). -/
inductive Failure where
  | http (status : Nat) (detail : String)
  | exn (msg : String)
  deriving Repr, DecidableEq

/-- Decidable equality for Except results, so that concrete handler
outcomes can be settled by decide. -/
instance {ε α : Type} [DecidableEq ε] [DecidableEq α] :
    DecidableEq (Except ε α) :=
  fun x y =>
    match x, y with
    | .ok a, .ok b =>
      if h : a = b then isTrue (h ▸ rfl)
      else isFalse (fun hc => h (Except.ok.inj hc))
    | .error a, .error b =>
      if h : a = b then isTrue (h ▸ rfl)
      else isFalse (fun hc => h (Except.error.inj hc))
    | .ok _, .error _ => isFalse (fun hc => Except.noConfusion hc)
    | .error _, .ok _ => isFalse (fun hc => Except.noConfusion hc)

/-! ## GmailService (src/backend/services/gmail_service.py) -/

/-- A raw provider message as read by GmailService.send_reply: the header
list of the Gmail API payload plus the thread id. -/
structure ApiMessage where
  headers : List (String × String)
  threadId : Option String
  deriving Repr, DecidableEq

/-- The outgoing message assembled by GmailService.send_email: recipient,
subject, body and optional thread id of the send request. -/
structure SendRequest where
  toAddr : Option String
  subject : String
  body : String
  threadId : Option String
  deriving Repr, DecidableEq

/-- The provider collaborator: results q is the (ordered, most recent
first) result list the Gmail API returns for search query q, with the
inbox itself at the empty query; byId and apiById look messages up by id;
the error fields inject transport failures into fetch, send and delete. -/
structure Gmail where
  results : String → List RawEmail
  byId : String → Option RawEmail
  apiById : String → Except String ApiMessage
  fetchError : Option String
  sendError : Option String
  deleteError : Option String

/-- GmailService.fetch_emails: list up to max_results messages matching the
query (the repository treats provider ordering as most recent first); on a
transport error it raises "Failed to fetch emails: ...". -/
def fetch_emails (g : Gmail) (max_results : Nat) (query : String) :
    Except String (List RawEmail) :=
  match g.fetchError with
  | some e => .error ("Failed to fetch emails: " ++ e)
  | none => .ok ((g.results query).take max_results)

/-- GmailService.search_emails delegates to fetch_emails with the query. -/
def search_emails (g : Gmail) (query : String) (max_results : Nat) :
    Except String (List RawEmail) :=
  fetch_emails g max_results query

/-- GmailService._get_header: first header whose name matches
case-insensitively. -/
def get_header (headers : List (String × String)) (name : String) : Option String :=
  match headers.find? (fun h => strLower h.1 = strLower name) with
  | some h => some h.2
  | none => none

/-- GmailService.send_reply: re-fetch the original message, read its From
and Subject headers and thread id, prefix the subject with "Re: " unless it
already starts with "Re:", and send on the same thread.  A missing Subject
header would crash the Python code on None.startswith, modelled as an
error; a transport failure on the send raises like send_email. -/
def send_reply_raw (g : Gmail) (original_email_id : String) (reply_body : String) :
    Except String SendRequest :=
  match g.apiById original_email_id with
  | .error e => .error ("Failed to send reply: " ++ e)
  | .ok original =>
    let original_sender := get_header original.headers "From"
    let original_subject := get_header original.headers "Subject"
    let thread_id := original.threadId
    match original_subject with
    | none => .error "AttributeError"
    | some subj =>
      let reply_subject :=
        if "Re:".toList.isPrefixOf subj.toList then subj else "Re: " ++ subj
      match g.sendError with
      | some e => .error ("Failed to send email: " ++ e)
      | none =>
        .ok { toAddr := original_sender, subject := reply_subject,
              body := reply_body, threadId := thread_id }

/-- GmailService.delete_email: permanently delete, raising "Failed to
delete email: ..." on a transport error; on success the API result echoes
the deleted id. -/
def delete_email_op (g : Gmail) (message_id : String) : Except String String :=
  match g.deleteError with
  | some e => .error ("Failed to delete email: " ++ e)
  | none => .ok message_id

/-! ## Email normalizer (chat.py format_email_for_display) -/

/-- Scan for the closing angle bracket of the non-greedy group, one
group character already consumed, accumulating group characters;
a newline (not matched by the dot) or the end of the text fails. -/
def angleClose (acc : List Char) : List Char → Option (List Char)
  | [] => none
  | c :: rest =>
    if c = '>' then some acc.reverse
    else if c = '\n' then none
    else angleClose (c :: acc) rest

/-- Match the non-greedy group plus closing bracket right after a left
bracket: at least one character, none of them a newline, up to the first
closing bracket at distance at least two. -/
def angleInner : List Char → Option (List Char)
  | [] => none
  | c :: rest =>
    if c = '\n' then none
    else angleClose [c] rest

/-- Group 1 of the first match of the angle-bracket regex: the shortest
nonempty newline-free run after a left angle bracket that is closed by a
right angle bracket; matching restarts at each later left bracket on
failure (re.search with a non-greedy group). -/
def angleGroup : List Char → Option (List Char)
  | [] => none
  | c :: rest => if c = '<' then
      match angleInner rest with
      | some g => some g
      | none => angleGroup rest
    else angleGroup rest

/-- chat.py format_email_for_display: total normalization of a RawEmail
into the display schema.  The RFC-2822 date parser
(email.utils.parsedate_to_datetime plus isoformat) is standard-library
code, passed in as parseDate (returning none on a parse failure, which the
Python code swallows).  Every .get default of the source is reproduced;
the isinstance string guards of the source are vacuous here because the
embedded fields are typed. -/
def format_email_for_display (parseDate : String → Option String)
    (email : RawEmail) : DisplayEmail :=
  let sender_name := email.sender_name.getD "Unknown"
  let sender_email0 :=
    match email.sender_email with
    | some s => if s = "" then email.sender.getD "" else s
    | none => email.sender.getD ""
  let sender_email :=
    if sender_email0.toList.contains '<' then
      match angleGroup sender_email0.toList with
      | some g => String.mk g
      | none => sender_email0
    else sender_email0
  let email_date := email.date.getD ""
  let timestamp := if email_date ≠ "" then parseDate email_date else none
  { id := email.id
    subject := email.subject.getD "No Subject"
    sender := { name := sender_name, email := sender_email }
    date := email_date
    timestamp := timestamp
    snippet := email.snippet.getD ""
    isRead := ! email.unread.getD false
    summary := none
    category := none
    body := none
    replyText := none }

/-! ## GeminiService.parse_command (src/backend/services/gemini_service.py)

The model call and json.loads are external collaborators: the model
response arrives as an Option String (none is a raised model-call error)
and the JSON parser as a function parameter.  The code this repository
owns is the fence stripping and the fallback structure. -/

/-- A JSON value (integer numerics suffice for the shapes this code
produces). -/
inductive Json where
  | null
  | bool (b : Bool)
  | num (n : Int)
  | str (s : String)
  | arr (elems : List Json)
  | obj (fields : List (String × Json))

/-- The key list of a JSON object (empty for non-objects); used to tell
two object values apart. -/
def Json.topKeys : Json → List String
  | .obj fields => fields.map Prod.fst
  | _ => []

/-- Object field lookup (none for non-objects). -/
def Json.lookupKey (j : Json) (k : String) : Option Json :=
  match j with
  | .obj fields => fields.lookup k
  | _ => none

/-- The default structure parse_command returns on any parse or model-call
failure (gemini_service.py lines 153-159): note the count key. -/
def parse_command_default (user_input : String) : Json :=
  .obj [("action", .str "unknown"),
        ("parameters", .obj [("count", .num 5), ("query", .str user_input)])]

/-- The markdown-fence cleanup of parse_command: strip, remove every
occurrence of the json code-fence opener and of the bare fence, strip
again (gemini_service.py lines 143-146). -/
def clean_model_json (text : String) : String :=
  String.mk (pyStrip (replaceFrom "```".toList []
    (replaceFrom "```json".toList [] (pyStrip text.toList))))

/-- GeminiService.parse_command given the raw model outcome: on model-call
failure or on a json.loads failure of the cleaned text, the default
structure; otherwise whatever JSON the model produced. -/
def parse_command (jsonParse : String → Option Json)
    (modelResponse : Option String) (user_input : String) : Json :=
  match modelResponse with
  | none => parse_command_default user_input
  | some text =>
    match jsonParse (clean_model_json text) with
    | some parsed => parsed
    | none => parse_command_default user_input

/-- The default structure as the spec sentence words it: parameters
holding only the query key.  Used to compare the spec against the
code default, which also carries count. -/
def spec_parse_default (user_input : String) : Json :=
  .obj [("action", .str "unknown"),
        ("parameters", .obj [("query", .str user_input)])]

/-! ## The remaining Gemini collaborator surface

Every other GeminiService method wraps the model call in a broad
try/except returning a fixed fallback, so each is a total function of its
inputs; the handlers consume them through this collaborator record. -/

/-- The compact record handle_categorize_emails sends to the model. -/
structure CatEmail where
  id : String
  sender_name : String
  sender : String
  subject : String
  snippet : String
  deriving Repr, DecidableEq

/-- The Gemini collaborator as seen from chat.py: total functions (the
service catches its own exceptions and substitutes fallback text). -/
structure Gemini where
  summarize_email : String → Nat → String
  generate_reply : String → String → String → Option String → String
  categorize_emails : List CatEmail → List (String × List String)
  generate_digest : List RawEmail → String

/-- Ambient collaborators of the chat router: the standard-library date
parser used by the normalizer, the current date string used by the digest
query, and the Gemini service. -/
structure Env where
  parseDate : String → Option String
  todayStr : String
  gemini : Gemini

/-! ## Response composer and enrichment helpers (chat.py) -/

/-- chat.py create_response: content plus emails/actions defaulting to
empty lists (Python: emails or []). -/
def create_response (content : String) (emails : Option (List DisplayEmail))
    (actions : Option (List ActionItem)) : Response :=
  { content := content, emails := emails.getD [], actions := actions.getD [] }

/-- chat.py enrich_emails_with_summaries: normalize each email and attach
a two-sentence model summary of its body (or snippet when the body is
empty). -/
def enrich_emails_with_summaries (env : Env) (emails : List RawEmail) :
    List DisplayEmail :=
  emails.map (fun email =>
    let formatted := format_email_for_display env.parseDate email
    { formatted with
        summary := some (env.gemini.summarize_email
          (pyOrS (email.body.getD "") (email.snippet.getD "")) 2) })

/-- chat.py prepare_reply_actions: one generate-all button when more than
one email is present, then one reply button per email, 1-indexed. -/
def prepare_reply_actions (emails : List DisplayEmail) : List ActionItem :=
  (if emails.length > 1 then
    [{ id := "generate-all-replies", type := "generate_replies",
       label := "Generate Replies for All", emailId := none,
       payload := { Payload.empty with
         emailIds := some (emails.map (fun e => e.id)),
         emails := some emails },
       requiresConfirmation := false, confirmTitle := none,
       confirmDescription := none, confirmLabel := none, cancelLabel := none }]
  else []) ++
  (emails.enumFrom 1).map (fun p =>
    { id := "reply-" ++ p.2.id, type := "reply",
      label := "Reply to #" ++ toString p.1, emailId := some p.2.id,
      payload := { Payload.empty with
        subject := some p.2.subject, senderObj := some p.2.sender },
      requiresConfirmation := false, confirmTitle := none,
      confirmDescription := none, confirmLabel := none, cancelLabel := none })

/-! ## Criteria resolver (chat.py find_email_by_criteria) -/

/-- One numeric-position attempt of find_email_by_criteria: fetch the n
most recent emails; when the fetched count is at least n return the email
at 1-indexed position n, otherwise fall through to the continuation.
Callers only pass n greater than zero (Python truthiness), so the index
n - 1 is in range whenever the guard holds. -/
def strategy_number (g : Gmail) (n : Nat) (next : Except String (Option RawEmail)) :
    Except String (Option RawEmail) :=
  match fetch_emails g n "" with
  | .error e => .error e
  | .ok emails => if n ≤ emails.length then .ok emails[n - 1]? else next

/-- One provider-search attempt of find_email_by_criteria: search with
max_results 1 and return the first match, falling through to the
continuation when the search comes back empty. -/
def strategy_search (g : Gmail) (query : String)
    (next : Except String (Option RawEmail)) : Except String (Option RawEmail) :=
  match search_emails g query 1 with
  | .error e => .error e
  | .ok [] => next
  | .ok (e :: _) => .ok (some e)

/-- NLP-fallback sender strategy (the final lines of
find_email_by_criteria): re-extract a sender from the raw command text
and search for it; when nothing matches the resolver reports none. -/
def find_step5 (g : Gmail) (user_message : String) :
    Except String (Option RawEmail) :=
  match extract_sender user_message with
  | none => .ok none
  | some s =>
    if s = "" then .ok none else strategy_search g ("from:" ++ s) (.ok none)

/-- NLP-fallback numeric strategy: re-extract a position from the raw
command text and retry the numeric strategy, else fall to the fallback
sender strategy.  Python truthiness makes an extracted 0 falsy. -/
def find_step4 (g : Gmail) (user_message : String) :
    Except String (Option RawEmail) :=
  match extract_email_number user_message with
  | none => find_step5 g user_message
  | some n =>
    if n = 0 then find_step5 g user_message
    else strategy_number g n (find_step5 g user_message)

/-- Explicit subject-keyword strategy: search for the first keyword only,
falling through to the NLP fallback; an absent or empty keyword list is
falsy and skips the strategy. -/
def find_step3 (g : Gmail) (subject_keywords : Option (List String))
    (user_message : String) : Except String (Option RawEmail) :=
  match subject_keywords with
  | some (k :: _) => strategy_search g ("subject:" ++ k) (find_step4 g user_message)
  | _ => find_step4 g user_message

/-- Explicit sender strategy: search from:sender, falling through to the
subject strategy; an absent or empty sender is falsy and skips it. -/
def find_step2 (g : Gmail) (sender : Option String)
    (subject_keywords : Option (List String)) (user_message : String) :
    Except String (Option RawEmail) :=
  match sender with
  | some s =>
    if s = "" then find_step3 g subject_keywords user_message
    else strategy_search g ("from:" ++ s) (find_step3 g subject_keywords user_message)
  | none => find_step3 g subject_keywords user_message

/-- chat.py find_email_by_criteria: explicit numeric position, explicit
sender, explicit first subject keyword, then the NLP fallback re-running
numeric and sender extraction over the raw command text; none when every
strategy falls through.  Each optional criterion is guarded by Python
truthiness (None, 0, empty string and empty list are all falsy). -/
def find_email_by_criteria (g : Gmail) (email_number : Option Nat)
    (sender : Option String) (subject_keywords : Option (List String))
    (user_message : String) : Except String (Option RawEmail) :=
  match email_number with
  | some n =>
    if n = 0 then find_step2 g sender subject_keywords user_message
    else strategy_number g n (find_step2 g sender subject_keywords user_message)
  | none => find_step2 g sender subject_keywords user_message

/-! ## Handlers (chat.py) -/

/-- The structured parameter bag handlers receive from the intent
classifier; every key is optional (absence means handler default). -/
structure Params where
  count : Option Nat
  query : Option String
  sender : Option String
  subject_keywords : Option (List String)
  email_number : Option Nat
  tone : Option String
  reply_context : Option String

/-- The empty parameter bag. -/
def Params.empty : Params :=
  { count := none, query := none, sender := none, subject_keywords := none,
    email_number := none, tone := none, reply_context := none }

/-- The per-email block of the read/search response content. -/
def email_block (p : Nat × DisplayEmail) : String :=
  "**Email #" ++ toString p.1 ++ "**\n" ++
  "From: " ++ p.2.sender.name ++ " (" ++ p.2.sender.email ++ ")\n" ++
  "Subject: " ++ p.2.subject ++ "\n" ++
  "Summary: " ++ p.2.summary.getD "" ++ "\n\n"

/-- chat.py handle_read_emails: fetch up to count (default 5), summarize
each, list them in the content, attach reply actions. -/
def handle_read_emails (env : Env) (g : Gmail) (params : Params) :
    Except Failure Response :=
  match fetch_emails g (params.count.getD 5) "" with
  | .error e => .error (.exn e)
  | .ok emails =>
    if emails.isEmpty then
      .ok (create_response "No emails found in your inbox." none none)
    else
      let emails_with_summaries := enrich_emails_with_summaries env emails
      let content :=
        ("I found " ++ toString emails_with_summaries.length ++
          " email(s) in your inbox:\n\n") ++
        ((emails_with_summaries.enumFrom 1).map email_block).foldl (· ++ ·) ""
      .ok (create_response content (some emails_with_summaries)
        (some (prepare_reply_actions emails_with_summaries)))

/-- chat.py handle_search_emails: with an empty query fall back to
handle_read_emails; otherwise search up to count (default 10), summarize
and list the matches without actions. -/
def handle_search_emails (env : Env) (g : Gmail) (params : Params) :
    Except Failure Response :=
  let query := params.query.getD ""
  let count := params.count.getD 10
  if query = "" then
    handle_read_emails env g { Params.empty with count := some count }
  else
    match search_emails g query count with
    | .error e => .error (.exn e)
    | .ok [] =>
      .ok (create_response ("No emails found matching your search: " ++ query)
        none none)
    | .ok emails =>
      let emails_with_summaries := enrich_emails_with_summaries env emails
      let content :=
        ("I found " ++ toString emails_with_summaries.length ++
          " email(s) matching your search:\n\n") ++
        ((emails_with_summaries.enumFrom 1).map email_block).foldl (· ++ ·) ""
      .ok (create_response content (some emails_with_summaries) none)

/-- The five display buckets of handle_categorize_emails, in dict
insertion order. -/
def categorize_buckets : List String :=
  ["Work", "Promotions", "Personal", "Urgent", "Other"]

/-- The lowercase-to-bucket map of handle_categorize_emails; unknown
labels collapse to Other. -/
def category_map (c : String) : String :=
  if c = "work" then "Work"
  else if c = "promotions" then "Promotions"
  else if c = "personal" then "Personal"
  else if c = "urgent" then "Urgent"
  else if c = "other" then "Other"
  else "Other"

/-- Append an email to one named bucket of the categorized table. -/
def bucket_add (buckets : String → List DisplayEmail) (name : String)
    (e : DisplayEmail) : String → List DisplayEmail :=
  fun k => if k = name then buckets k ++ [e] else buckets k

/-- Fill the categorized table from the model output: for every category
and every referenced id, ids outside the fetched batch are dropped, the
email is normalized, tagged with the lowercase category label, and
appended to the mapped bucket. -/
def fill_buckets (env : Env) (lookup : String → Option RawEmail)
    (categories : List (String × List String)) : String → List DisplayEmail :=
  categories.foldl (fun buckets cat =>
    cat.2.foldl (fun buckets email_id =>
      match lookup email_id with
      | none => buckets
      | some original =>
        let formatted := { format_email_for_display env.parseDate original with
          category := some (strLower cat.1) }
        bucket_add buckets (category_map (strLower cat.1)) formatted) buckets)
    (fun _ => [])

/-- The per-category section of the categorize response content: first
five emails as bullets, then an ellipsis line when more remain. -/
def category_section (name : String) (cat_emails : List DisplayEmail) : String :=
  if cat_emails.isEmpty then ""
  else
    ("**" ++ name ++ "** (" ++ toString cat_emails.length ++ " emails)\n") ++
    ((cat_emails.take 5).map (fun e =>
      "â€¢ " ++ e.subject ++ " - " ++ e.sender.name ++ "\n")).foldl (· ++ ·) "" ++
    (if cat_emails.length > 5 then
      "  ... and " ++ toString (cat_emails.length - 5) ++ " more\n"
    else "") ++ "\n"

/-- chat.py handle_categorize_emails: fetch up to count (default 20),
submit the compact batch to the model, distribute the answer over the
five fixed buckets, render a section per nonempty bucket. -/
def handle_categorize_emails (env : Env) (g : Gmail) (params : Params) :
    Except Failure Response :=
  match fetch_emails g (params.count.getD 20) "" with
  | .error e => .error (.exn e)
  | .ok emails =>
    if emails.isEmpty then
      .ok (create_response "No emails found to categorize." none none)
    else
      let compact := emails.map (fun email =>
        { id := email.id
          sender_name := email.sender_name.getD "Unknown"
          sender := email.sender.getD ""
          subject := email.subject.getD "No Subject"
          snippet := (email.snippet.getD "").take 100 : CatEmail })
      let categories := env.gemini.categorize_emails compact
      let lookup : String → Option RawEmail := fun i =>
        emails.find? (fun e => e.id = i)
      let buckets := fill_buckets env lookup categories
      let content := "ðŸ“§ **Smart Inbox Grouping**\n\n" ++
        (categorize_buckets.map (fun name =>
          category_section name (buckets name))).foldl (· ++ ·) ""
      let all_emails := (categorize_buckets.map buckets).flatten
      .ok (create_response content (some all_emails) none)

/-- chat.py handle_daily_digest: search for emails after today, summarize
each for the attachment list, generate one digest narrative, attach the
first ten normalized emails. -/
def handle_daily_digest (env : Env) (g : Gmail) (_params : Params) :
    Except Failure Response :=
  match search_emails g ("after:" ++ env.todayStr) 50 with
  | .error e => .error (.exn e)
  | .ok [] => .ok (create_response "No emails found for today." none none)
  | .ok emails =>
    let email_list := emails.map (fun email =>
      { format_email_for_display env.parseDate email with
          summary := some (env.gemini.summarize_email
            (pyOrS (email.body.getD "") (email.snippet.getD "")) 1) })
    let digest_text := env.gemini.generate_digest emails
    let content := "ðŸ“… **Today" ++ String.singleton (Char.ofNat 39) ++
      "s Email Digest** (" ++ toString emails.length ++ " emails)\n\n" ++ digest_text
    .ok (create_response content (some (email_list.take 10)) none)

/-- One loop iteration of handle_generate_all_replies over the 1-indexed
email dictionaries: patch a missing body from the provider, skip the email
when the body is still empty, otherwise draft a professional reply,
extend the content, record the reply on the email and append a confirmed
send action. -/
def gen_replies_step (env : Env) (g : Gmail)
    (acc : String × List DisplayEmail × List ActionItem)
    (p : Nat × DisplayEmail) : String × List DisplayEmail × List ActionItem :=
  let info0 := p.2
  let info :=
    if (info0.body.getD "") = "" then
      match g.byId info0.id with
      | some email =>
        { info0 with body := some (pyOrS (email.body.getD "") (email.snippet.getD "")) }
      | none => info0
    else info0
  let sender_name := info.sender.name
  let email_body := info.body.getD ""
  if email_body = "" then acc
  else
    let reply_text := env.gemini.generate_reply email_body sender_name "professional" none
    let subject := info.subject
    let content := acc.1 ++
      "**Email #" ++ toString p.1 ++ ": " ++ subject ++ "**\n" ++
      "From: " ++ sender_name ++ "\n" ++
      "Suggested Reply:\n" ++ reply_text ++ "\n\n"
    let info := { info with replyText := some reply_text }
    let action : ActionItem :=
      { id := "send-reply-" ++ info.id, type := "send_reply",
        label := "Send Reply #" ++ toString p.1, emailId := some info.id,
        payload := { Payload.empty with
          replyText := some reply_text, subject := some subject,
          senderName := some sender_name },
        requiresConfirmation := true, confirmTitle := some "Send Reply?",
        confirmDescription := some ("Send this reply to " ++ sender_name ++ "?"),
        confirmLabel := none, cancelLabel := none }
    (content, acc.2.1 ++ [info], acc.2.2 ++ [action])

/-- chat.py handle_generate_all_replies: use the payload emails, or fetch
them by id when only ids are present; then the drafting loop above. -/
def handle_generate_all_replies (env : Env) (g : Gmail) (payload : Payload) :
    Except Failure Response :=
  let emails_data := payload.emails.getD []
  let email_ids := payload.emailIds.getD []
  let emails_data :=
    if emails_data.isEmpty ∧ ¬ email_ids.isEmpty then
      email_ids.filterMap (fun email_id =>
        match g.byId email_id with
        | some email => some
            { format_email_for_display env.parseDate email with
                body := some (pyOrS (email.body.getD "") (email.snippet.getD "")) }
        | none => none)
    else emails_data
  if emails_data.isEmpty then
    .ok (create_response "No emails found to generate replies for." none none)
  else
    let start : String × List DisplayEmail × List ActionItem :=
      ("Here are the suggested replies for your emails:\n\n", [], [])
    let result := (emails_data.enumFrom 1).foldl (gen_replies_step env g) start
    .ok (create_response result.1 (some result.2.1) (some result.2.2))

/-- The reply-draft response handle_reply_request composes once a target
email is fixed: tone-controlled draft, one confirm-required send action,
the normalized target attached. -/
def reply_draft_response (env : Env) (target : RawEmail) (params : Params) :
    Response :=
  let reply_text := env.gemini.generate_reply
    (pyOrS (target.body.getD "") (target.snippet.getD ""))
    (target.sender_name.getD "the sender")
    (params.tone.getD "professional") params.reply_context
  let sender_name := target.sender_name.getD "Unknown"
  let subject := target.subject.getD "No Subject"
  let actions : List ActionItem :=
    [{ id := "send-reply-" ++ target.id, type := "send_reply",
       label := "Send Reply", emailId := some target.id,
       payload := { Payload.empty with
         replyText := some reply_text, subject := some subject,
         senderName := some sender_name },
       requiresConfirmation := true, confirmTitle := some "Send Reply?",
       confirmDescription := some ("Send this reply to " ++ sender_name ++ "?"),
       confirmLabel := none, cancelLabel := none }]
  let content := "Here" ++ String.singleton (Char.ofNat 39) ++
    "s a suggested reply to \"" ++ subject ++ "\" from " ++ sender_name ++
    ":\n\n**Suggested Reply:**\n" ++ reply_text
  create_response content
    (some [format_email_for_display env.parseDate target]) actions

/-- The bulk-phrase list of handle_reply_request. -/
def bulk_phrases : List String := ["all", "these", "them", "my emails", "the emails"]

/-- chat.py handle_reply_request: bulk path when the lowercased message
contains a bulk phrase; otherwise resolve one target (explicit id first,
then the criteria resolver), silently falling back to the single most
recent email, with a guidance response only on an empty inbox. -/
def handle_reply_request (env : Env) (g : Gmail) (user_message : String)
    (params : Params) (email_id : Option String) : Except Failure Response :=
  let user_msg_lower := strLower user_message
  if bulk_phrases.any (fun phrase =>
      containsSub phrase.toList user_msg_lower.toList) then
    match fetch_emails g 5 "" with
    | .error e => .error (.exn e)
    | .ok [] =>
      .ok (create_response "No emails found to generate replies for." none none)
    | .ok emails =>
      let emails_data := emails.map (fun email =>
        { format_email_for_display env.parseDate email with
            body := some (pyOrS (email.body.getD "") (email.snippet.getD "")) })
      handle_generate_all_replies env g
        { Payload.empty with emails := some emails_data }
  else
    let target0 :=
      match email_id with
      | some eid => if eid = "" then none else g.byId eid
      | none => none
    let found :=
      match target0 with
      | some t => Except.ok (some t)
      | none => find_email_by_criteria g params.email_number params.sender
          params.subject_keywords user_message
    match found with
    | .error e => .error (.exn e)
    | .ok (some target) => .ok (reply_draft_response env target params)
    | .ok none =>
      match fetch_emails g 1 "" with
      | .error e => .error (.exn e)
      | .ok [] => .ok (create_response "No emails found to reply to." none none)
      | .ok (e :: _) => .ok (reply_draft_response env e params)

/-- The guidance content handle_delete_request returns when no email
matches (apostrophes written via their character code). -/
def delete_not_found_content : String :=
  "**I couldn" ++ String.singleton (Char.ofNat 39) ++
  "t find the email you want to delete.**\n\n" ++
  "**Here are some ways to delete emails:**\n\n" ++
  "**1. By Number:**\n   \"Delete email number 2\"\n" ++
  "   (First view your emails to see the numbers)\n\n" ++
  "**2. By Sender:**\n   \"Delete the latest email from john@example.com\"\n\n" ++
  "**3. By Subject:**\n   \"Delete email with subject " ++
  String.singleton (Char.ofNat 39) ++ "Invoice" ++
  String.singleton (Char.ofNat 39) ++ "\"\n\n" ++
  "**Tip:** Say \"Show me my emails\" first to see what you have, " ++
  "then you can delete by number!"

/-- chat.py handle_delete_request: resolve the target through the
criteria resolver; not-found yields the guidance response, a match yields
a confirm-required delete action. -/
def handle_delete_request (env : Env) (g : Gmail) (user_message : String)
    (params : Params) : Except Failure Response :=
  match find_email_by_criteria g params.email_number params.sender
      params.subject_keywords user_message with
  | .error e => .error (.exn e)
  | .ok none => .ok (create_response delete_not_found_content none none)
  | .ok (some target) =>
    let sender_name := target.sender_name.getD "Unknown"
    let subject := target.subject.getD "No Subject"
    let actions : List ActionItem :=
      [{ id := "delete-" ++ target.id, type := "delete",
         label := "Delete Email", emailId := some target.id,
         payload := { Payload.empty with
           subject := some subject, senderName := some sender_name },
         requiresConfirmation := true,
         confirmTitle := some "Permanently Delete Email?",
         confirmDescription := some ("This will permanently delete \"" ++ subject ++
           "\" from " ++ sender_name ++ ". This action cannot be undone."),
         confirmLabel := some "Delete Permanently",
         cancelLabel := some "Cancel" }]
    let content := "I found the email you want to delete:\n\n**From:** " ++
      sender_name ++ "\n**Subject:** " ++ subject ++
      "\n\nPlease confirm to delete this email."
    .ok (create_response content
      (some [format_email_for_display env.parseDate target]) (some actions))

/-- chat.py handle_send_reply: reject a missing or empty reply text with a
400 before any provider call; a provider failure on the send is captured
and rendered as a normal response.  The second component is the trace of
provider send calls the handler performed (original id, reply body). -/
def handle_send_reply (g : Gmail) (email_id : String) (payload : Payload) :
    Except Failure Response × List (String × String) :=
  let reply_text := payload.replyText.getD ""
  if reply_text = "" then
    (.error (.http 400 "Reply text is required"), [])
  else
    match send_reply_raw g email_id reply_text with
    | .ok _ =>
      (.ok (create_response
        "âœ… Reply sent successfully! Your message has been delivered." none none),
       [(email_id, reply_text)])
    | .error e =>
      (.ok (create_response ("âŒ Failed to send reply: " ++ e) none none),
       [(email_id, reply_text)])

/-- chat.py handle_delete_email: a provider failure on the delete is
captured and rendered as a normal response.  The second component is the
trace of provider delete calls performed. -/
def handle_delete_email (g : Gmail) (email_id : String) :
    Except Failure Response × List String :=
  match delete_email_op g email_id with
  | .ok _ =>
    (.ok (create_response "âœ… Email permanently deleted successfully!" none none),
     [email_id])
  | .error e =>
    (.ok (create_response ("âŒ Failed to delete email: " ++ e) none none),
     [email_id])

/-! ## Sample data for concrete witnesses -/

/-- A concrete provider email. -/
def mkEmail (i su sn se sni : String) : RawEmail :=
  { id := i, thread_id := some ("t" ++ i), subject := some su,
    sender := some (sn ++ " <" ++ se ++ ">"), sender_name := some sn,
    sender_email := some se, date := some "", body := some ("body-" ++ i),
    snippet := some sni, unread := some false }

/-- Three inbox emails plus two search-only emails used by the witnesses. -/
def em1 : RawEmail := mkEmail "e1" "Hello" "Alice" "alice@x.com" "sn1"

def em2 : RawEmail := mkEmail "e2" "Invoice" "Bob" "bob@x.com" "sn2"

def em3 : RawEmail := mkEmail "e3" "Lunch" "Carol" "carol@x.com" "sn3"

def emA : RawEmail := mkEmail "ea" "FromAlice" "Alice" "alice@x.com" "snA"

def emB : RawEmail := mkEmail "eb" "InvoiceB" "Dora" "dora@x.com" "snB"

/-- The raw API message behind id m1 (for the send-reply witness). -/
def msg1 : ApiMessage :=
  { headers := [("From", "alice@x.com"), ("Subject", "Hello")],
    threadId := some "t1" }

/-- A healthy concrete provider with a three-email inbox and two canned
search results. -/
def gSample : Gmail :=
  { results := fun q =>
      if q = "" then [em1, em2, em3]
      else if q = "from:alice@x.com" then [emA]
      else if q = "subject:invoice" then [emB]
      else []
    byId := fun i => if i = "e1" then some em1 else none
    apiById := fun i => if i = "m1" then .ok msg1 else .error "HttpError 404"
    fetchError := none, sendError := none, deleteError := none }

/-- A provider whose transport calls all fail. -/
def gFail : Gmail :=
  { results := fun _ => []
    byId := fun _ => none
    apiById := fun _ => .error "HttpError 500"
    fetchError := some "boom"
    sendError := some "boom"
    deleteError := some "boom" }

/-- A concrete collaborator environment with deterministic model stubs
(the model is an external collaborator; any function is a legal
instantiation). -/
def env0 : Env :=
  { parseDate := fun _ => none
    todayStr := "2026/10/12"
    gemini :=
      { summarize_email := fun _ _ => "summary"
        generate_reply := fun _ _ _ _ => "draft reply"
        categorize_emails := fun _ => []
        generate_digest := fun _ => "digest text" } }

/-! ## C5 — the normalizer is total and isRead is the negation of unread -/

/-- C5: format_email_for_display is a total Lean function of every
RawEmail (it substitutes the .get defaults of the source for every absent
field, so no input makes it fail), and the produced isRead flag is the
boolean negation of the unread flag, which defaults to false when absent. -/
theorem c5_normalizer_total_isread (parseDate : String → Option String)
    (email : RawEmail) :
    (format_email_for_display parseDate email).isRead =
      ! email.unread.getD false := by
  rfl

/-! ## C10 — empty reply text is rejected with a 400 before any send -/

/-- C10: for every provider state and every payload whose replyText is
absent or the empty string, handle_send_reply raises the 400 client error
"Reply text is required" and its provider-call trace is empty: no email is
sent and the mailbox is untouched (the result does not depend on the
provider at all). -/
theorem c10_send_reply_requires_text (g : Gmail) (email_id : String)
    (payload : Payload)
    (h : payload.replyText = none ∨ payload.replyText = some "") :
    handle_send_reply g email_id payload =
      (.error (.http 400 "Reply text is required"), []) := by
  rcases h with h | h <;> simp [handle_send_reply, h]

/-- Witness for C10 at the empty payload on a healthy provider. -/
theorem c10_send_reply_requires_text_witness :
    handle_send_reply gSample "e1" Payload.empty =
      (.error (.http 400 "Reply text is required"), []) :=
  c10_send_reply_requires_text gSample "e1" Payload.empty (Or.inl rfl)

/-! ## C8 — send_reply prefixes the subject and preserves the thread -/

/-- C8: whenever the original message is retrievable, carries a Subject
header, and the transport send succeeds, the reply built by
GmailService.send_reply has subject "Re: " prefixed to the original
subject exactly when that prefix is not already present (and the subject
unchanged when it is), is addressed to the original From header, carries
the given body, and is sent on the original thread id. -/
theorem c8_send_reply_subject_thread (g : Gmail) (oid body : String)
    (orig : ApiMessage) (subj : String)
    (ha : g.apiById oid = .ok orig)
    (hs : get_header orig.headers "Subject" = some subj)
    (hsend : g.sendError = none) :
    send_reply_raw g oid body =
      .ok { toAddr := get_header orig.headers "From"
            subject := if "Re:".toList.isPrefixOf subj.toList then subj
              else "Re: " ++ subj
            body := body
            threadId := orig.threadId } := by
  simp [send_reply_raw, ha, hs, hsend]

/-- Witness for C8: a concrete original without the prefix gains it,
thread id t1 is preserved. -/
theorem c8_send_reply_subject_thread_witness :
    send_reply_raw gSample "m1" "thanks" =
      .ok { toAddr := some "alice@x.com", subject := "Re: Hello",
            body := "thanks", threadId := some "t1" } := by
  have h := c8_send_reply_subject_thread gSample "m1" "thanks" msg1 "Hello"
    rfl (by decide) rfl
  exact h.trans (by decide)

/-! ## C2 — the sender strategy strictly precedes the subject strategy -/

/-- C2: with no numeric criterion, a nonempty sender criterion whose
provider search matches, and any subject-keyword criterion that also
matches a different email, the resolver returns the sender match and
never the subject match: the sender strategy runs first and the resolver
returns on its first success without combining strategies. -/
theorem c2_sender_beats_subject (g : Gmail) (s k : String) (ks : List String)
    (msg : String) (e1 e2 : RawEmail) (r1 r2 : List RawEmail)
    (hf : g.fetchError = none) (hs : s ≠ "")
    (h1 : g.results ("from:" ++ s) = e1 :: r1)
    (_h2 : g.results ("subject:" ++ k) = e2 :: r2)
    (hne : e1 ≠ e2) :
    find_email_by_criteria g none (some s) (some (k :: ks)) msg = .ok (some e1) ∧
    find_email_by_criteria g none (some s) (some (k :: ks)) msg ≠ .ok (some e2) := by
  have main : find_email_by_criteria g none (some s) (some (k :: ks)) msg =
      .ok (some e1) := by
    simp [find_email_by_criteria, find_step2, strategy_search, search_emails,
      fetch_emails, hf, hs, h1]
  refine ⟨main, ?_⟩
  rw [main]
  simp [hne]

/-- Witness for C2 on the concrete provider: both the sender and the
subject search match, different emails, and the sender match is returned. -/
theorem c2_sender_beats_subject_witness :
    find_email_by_criteria gSample none (some "alice@x.com")
      (some ["invoice"]) "" = .ok (some emA) ∧
    find_email_by_criteria gSample none (some "alice@x.com")
      (some ["invoice"]) "" ≠ .ok (some emB) :=
  c2_sender_beats_subject gSample "alice@x.com" "invoice" [] "" emA emB [] []
    rfl (by decide) (by decide) (by decide) (by decide)

/-! ## C6 — send/delete failures are captured, read/search failures raise -/

/-- C6: a provider failure inside handle_send_reply or
handle_delete_email is not propagated: the handler returns a normal
response whose content states the failure (with the provider call on the
trace, so the failure happened after the call was attempted); by
contrast a provider failure during a read or a nonempty search escapes
the handler as a raised error (converted to a 500 at the endpoint). -/
theorem c6_send_delete_capture_read_propagate :
    (∀ (g : Gmail) (email_id : String) (payload : Payload) (t e : String),
      payload.replyText = some t → t ≠ "" →
      send_reply_raw g email_id t = .error e →
      handle_send_reply g email_id payload =
        (.ok (create_response ("âŒ Failed to send reply: " ++ e) none none),
         [(email_id, t)])) ∧
    (∀ (g : Gmail) (email_id e : String),
      delete_email_op g email_id = .error e →
      handle_delete_email g email_id =
        (.ok (create_response ("âŒ Failed to delete email: " ++ e) none none),
         [email_id])) ∧
    (∀ (env : Env) (g : Gmail) (params : Params) (e : String),
      g.fetchError = some e →
      handle_read_emails env g params =
        .error (.exn ("Failed to fetch emails: " ++ e))) ∧
    (∀ (env : Env) (g : Gmail) (params : Params) (e q : String),
      g.fetchError = some e → params.query = some q → q ≠ "" →
      handle_search_emails env g params =
        .error (.exn ("Failed to fetch emails: " ++ e))) := by
  refine ⟨?_, ?_, ?_, ?_⟩
  · intro g email_id payload t e ht hne hsend
    simp [handle_send_reply, ht, hne, hsend]
  · intro g email_id e hdel
    simp [handle_delete_email, hdel]
  · intro env g params e hf
    simp [handle_read_emails, fetch_emails, hf]
  · intro env g params e q hf hq hne
    simp [handle_search_emails, hq, hne, search_emails, fetch_emails, hf]

/-- Witness for C6 on the all-failing provider: the send and delete
handlers answer with failure-stating envelopes, the read handler raises. -/
theorem c6_send_delete_capture_read_propagate_witness :
    handle_send_reply gFail "e1" { Payload.empty with replyText := some "hi" } =
      (.ok (create_response
        ("âŒ Failed to send reply: " ++ "Failed to send reply: HttpError 500")
        none none), [("e1", "hi")]) ∧
    handle_delete_email gFail "e1" =
      (.ok (create_response
        ("âŒ Failed to delete email: " ++ "Failed to delete email: boom")
        none none), ["e1"]) ∧
    handle_read_emails env0 gFail Params.empty =
      .error (.exn ("Failed to fetch emails: " ++ "boom")) :=
  ⟨c6_send_delete_capture_read_propagate.1 gFail "e1"
      { Payload.empty with replyText := some "hi" } "hi"
      "Failed to send reply: HttpError 500" rfl (by decide) (by decide),
   c6_send_delete_capture_read_propagate.2.1 gFail "e1"
      "Failed to delete email: boom" (by decide),
   c6_send_delete_capture_read_propagate.2.2.1 env0 gFail Params.empty "boom" rfl⟩

/-! ## C1 — helper lemmas about the resolver strategies -/

/-- With a healthy transport and 1 ≤ n ≤ inbox length, the numeric
strategy returns the element at 1-indexed position n. -/
theorem strategy_number_of_le (g : Gmail) (n : Nat)
    (next : Except String (Option RawEmail)) (hf : g.fetchError = none)
    (h1 : 1 ≤ n) (h2 : n ≤ (g.results "").length) :
    strategy_number g n next = .ok (g.results "")[n - 1]? := by
  simp only [strategy_number, fetch_emails, hf]
  rw [if_pos]
  · rw [List.getElem?_take_of_lt (by omega)]
  · rw [List.length_take]; omega

/-- With a healthy transport and n beyond the inbox length, the numeric
strategy falls through to its continuation. -/
theorem strategy_number_of_gt (g : Gmail) (n : Nat)
    (next : Except String (Option RawEmail)) (hf : g.fetchError = none)
    (h2 : (g.results "").length < n) :
    strategy_number g n next = next := by
  simp only [strategy_number, fetch_emails, hf]
  rw [if_neg]
  rw [List.length_take]; omega

/-- A nonempty search result makes the search strategy return its head. -/
theorem strategy_search_of_cons (g : Gmail) (q : String)
    (next : Except String (Option RawEmail)) (e : RawEmail) (r : List RawEmail)
    (hf : g.fetchError = none) (h : g.results q = e :: r) :
    strategy_search g q next = .ok (some e) := by
  simp [strategy_search, search_emails, fetch_emails, hf, h]

/-- An empty search result makes the search strategy fall through. -/
theorem strategy_search_of_nil (g : Gmail) (q : String)
    (next : Except String (Option RawEmail)) (hf : g.fetchError = none)
    (h : g.results q = []) : strategy_search g q next = next := by
  simp [strategy_search, search_emails, fetch_emails, hf, h]

/-- With a healthy transport the numeric strategy preserves success. -/
theorem strategy_number_ok (g : Gmail) (n : Nat)
    (next : Except String (Option RawEmail)) (hf : g.fetchError = none)
    (hn : ∃ v, next = .ok v) : ∃ v, strategy_number g n next = .ok v := by
  simp only [strategy_number, fetch_emails, hf]
  split
  · exact ⟨_, rfl⟩
  · exact hn

/-- With a healthy transport the search strategy preserves success. -/
theorem strategy_search_ok (g : Gmail) (q : String)
    (next : Except String (Option RawEmail)) (hf : g.fetchError = none)
    (hn : ∃ v, next = .ok v) : ∃ v, strategy_search g q next = .ok v := by
  simp only [strategy_search, search_emails, fetch_emails, hf]
  cases ht : (g.results q).take 1 with
  | nil => simp only [ht]; exact hn
  | cons a r => exact ⟨some a, by simp only [ht]⟩

/-- With a healthy transport the NLP sender fallback never raises. -/
theorem find_step5_ok (g : Gmail) (msg : String) (hf : g.fetchError = none) :
    ∃ v, find_step5 g msg = .ok v := by
  unfold find_step5
  split
  · exact ⟨none, rfl⟩
  · split
    · exact ⟨none, rfl⟩
    · exact strategy_search_ok g _ _ hf ⟨none, rfl⟩

/-- With a healthy transport the NLP numeric fallback never raises. -/
theorem find_step4_ok (g : Gmail) (msg : String) (hf : g.fetchError = none) :
    ∃ v, find_step4 g msg = .ok v := by
  unfold find_step4
  split
  · exact find_step5_ok g msg hf
  · split
    · exact find_step5_ok g msg hf
    · exact strategy_number_ok g _ _ hf (find_step5_ok g msg hf)

/-- With a healthy transport the subject strategy never raises. -/
theorem find_step3_ok (g : Gmail) (kw : Option (List String)) (msg : String)
    (hf : g.fetchError = none) : ∃ v, find_step3 g kw msg = .ok v := by
  unfold find_step3
  match kw with
  | none => exact find_step4_ok g msg hf
  | some [] => exact find_step4_ok g msg hf
  | some (k :: ks) => exact strategy_search_ok g _ _ hf (find_step4_ok g msg hf)

/-- With a healthy transport the sender strategy never raises. -/
theorem find_step2_ok (g : Gmail) (s : Option String) (kw : Option (List String))
    (msg : String) (hf : g.fetchError = none) :
    ∃ v, find_step2 g s kw msg = .ok v := by
  unfold find_step2
  split
  · split
    · exact find_step3_ok g kw msg hf
    · exact strategy_search_ok g _ _ hf (find_step3_ok g kw msg hf)
  · exact find_step3_ok g kw msg hf

/-- A successful numeric strategy result is an inbox element, unless the
strategy fell through. -/
theorem strategy_number_mem (g : Gmail) (n : Nat)
    (next : Except String (Option RawEmail)) (e : RawEmail)
    (hf : g.fetchError = none) (h : strategy_number g n next = .ok (some e)) :
    e ∈ g.results "" ∨ next = .ok (some e) := by
  simp only [strategy_number, fetch_emails, hf] at h
  split at h
  · left
    exact List.take_subset n _ (List.getElem?_mem (Except.ok.inj h))
  · right; exact h

/-- A successful search strategy result belongs to the search result
list, unless the strategy fell through. -/
theorem strategy_search_mem (g : Gmail) (q : String)
    (next : Except String (Option RawEmail)) (e : RawEmail)
    (hf : g.fetchError = none) (h : strategy_search g q next = .ok (some e)) :
    e ∈ g.results q ∨ next = .ok (some e) := by
  simp only [strategy_search, search_emails, fetch_emails, hf] at h
  cases ht : (g.results q).take 1 with
  | nil => rw [ht] at h; right; exact h
  | cons a r =>
    rw [ht] at h
    left
    have ha : a = e := Option.some.inj (Except.ok.inj h)
    subst ha
    exact List.take_subset 1 _ (ht ▸ List.mem_cons_self a r)

/-- Any email the NLP sender fallback returns came from a provider
result list. -/
theorem find_step5_mem (g : Gmail) (msg : String) (e : RawEmail)
    (hf : g.fetchError = none) (h : find_step5 g msg = .ok (some e)) :
    ∃ q, e ∈ g.results q := by
  unfold find_step5 at h
  split at h
  · exact absurd (Except.ok.inj h) (by simp)
  · split at h
    · exact absurd (Except.ok.inj h) (by simp)
    · rcases strategy_search_mem g _ _ e hf h with hm | hn
      · exact ⟨_, hm⟩
      · exact absurd (Except.ok.inj hn) (by simp)

/-- Any email the NLP numeric fallback returns came from a provider
result list. -/
theorem find_step4_mem (g : Gmail) (msg : String) (e : RawEmail)
    (hf : g.fetchError = none) (h : find_step4 g msg = .ok (some e)) :
    ∃ q, e ∈ g.results q := by
  unfold find_step4 at h
  split at h
  · exact find_step5_mem g msg e hf h
  · split at h
    · exact find_step5_mem g msg e hf h
    · rcases strategy_number_mem g _ _ e hf h with hm | hrest
      · exact ⟨"", hm⟩
      · exact find_step5_mem g msg e hf hrest

/-- Any email the subject strategy returns came from a provider result
list. -/
theorem find_step3_mem (g : Gmail) (kw : Option (List String)) (msg : String)
    (e : RawEmail) (hf : g.fetchError = none)
    (h : find_step3 g kw msg = .ok (some e)) : ∃ q, e ∈ g.results q := by
  unfold find_step3 at h
  match kw, h with
  | none, h => exact find_step4_mem g msg e hf h
  | some [], h => exact find_step4_mem g msg e hf h
  | some (k :: ks), h =>
    rcases strategy_search_mem g _ _ e hf h with hm | hrest
    · exact ⟨_, hm⟩
    · exact find_step4_mem g msg e hf hrest

/-- Any email the sender strategy returns came from a provider result
list. -/
theorem find_step2_mem (g : Gmail) (s : Option String)
    (kw : Option (List String)) (msg : String) (e : RawEmail)
    (hf : g.fetchError = none) (h : find_step2 g s kw msg = .ok (some e)) :
    ∃ q, e ∈ g.results q := by
  unfold find_step2 at h
  split at h
  · split at h
    · exact find_step3_mem g kw msg e hf h
    · rcases strategy_search_mem g _ _ e hf h with hm | hrest
      · exact ⟨_, hm⟩
      · exact find_step3_mem g kw msg e hf hrest
  · exact find_step3_mem g kw msg e hf h

/-! ## C1 — numeric position resolution -/

/-- C1: with a healthy transport and an explicit numeric criterion K ≥ 1,
the resolver (a) for K within the inbox returns the email at 1-indexed
position K of the fetched list, and that position is populated (never out
of range); (b) for K beyond the inbox falls through, behaving exactly as
the resolver without the numeric criterion; (c) never raises; and (d)
only ever returns an email drawn from a provider result list. -/
theorem c1_numeric_position (g : Gmail) (K : Nat) (s : Option String)
    (kw : Option (List String)) (msg : String)
    (hf : g.fetchError = none) (h1 : 1 ≤ K) :
    (K ≤ (g.results "").length →
      find_email_by_criteria g (some K) s kw msg = .ok (g.results "")[K - 1]? ∧
      (g.results "")[K - 1]?.isSome = true) ∧
    ((g.results "").length < K →
      find_email_by_criteria g (some K) s kw msg =
        find_email_by_criteria g none s kw msg) ∧
    (∃ v, find_email_by_criteria g (some K) s kw msg = .ok v) ∧
    (∀ e, find_email_by_criteria g (some K) s kw msg = .ok (some e) →
      ∃ q, e ∈ g.results q) := by
  have hK : ¬ K = 0 := by omega
  have hunf : find_email_by_criteria g (some K) s kw msg =
      strategy_number g K (find_step2 g s kw msg) := by
    simp [find_email_by_criteria, hK]
  refine ⟨?_, ?_, ?_, ?_⟩
  · intro hle
    rw [hunf, strategy_number_of_le g K _ hf h1 hle]
    refine ⟨rfl, ?_⟩
    rw [List.getElem?_eq_getElem (show K - 1 < (g.results "").length by omega)]
    rfl
  · intro hgt
    rw [hunf, strategy_number_of_gt g K _ hf hgt]
    rfl
  · rw [hunf]
    exact strategy_number_ok g K _ hf (find_step2_ok g s kw msg hf)
  · intro e h
    rw [hunf] at h
    rcases strategy_number_mem g K _ e hf h with hm | hrest
    · exact ⟨"", hm⟩
    · exact find_step2_mem g s kw msg e hf hrest

/-- Witness for C1 on the concrete three-email inbox with K = 2: the
second inbox email is returned. -/
theorem c1_numeric_position_witness :
    find_email_by_criteria gSample (some 2) none none "" =
      .ok (gSample.results "")[1]? ∧
    (gSample.results "")[1]?.isSome = true :=
  (c1_numeric_position gSample 2 none none "" rfl (by decide)).1 (by decide)

/-! ## C9 — reply falls back silently to the most recent email -/

/-- C9: on a conversational reply with no explicit email id and no bulk
phrase in the message, when the criteria resolver finds nothing the
handler does not answer with not-found guidance: with a non-empty inbox
it silently drafts a reply to the single most recent email (fetched with
max_results 1); only an empty inbox produces the "No emails found to
reply to." response. -/
theorem c9_reply_silent_fallback (env : Env) (g : Gmail) (msg : String)
    (params : Params)
    (hb : bulk_phrases.any
      (fun phrase => containsSub phrase.toList (strLower msg).toList) = false)
    (hfind : find_email_by_criteria g params.email_number params.sender
      params.subject_keywords msg = .ok none)
    (hf : g.fetchError = none) :
    handle_reply_request env g msg params none =
      (match g.results "" with
       | [] => .ok (create_response "No emails found to reply to." none none)
       | e :: _ => .ok (reply_draft_response env e params)) := by
  simp only [handle_reply_request, hb, Bool.false_eq_true, if_false, hfind,
    fetch_emails, hf]
  cases hr : g.results "" with
  | nil => simp [hr]
  | cons e r => simp [hr]

/-- Witness for C9 on the concrete inbox: the command "reply" matches no
strategy, and the handler drafts a reply to the most recent email em1
rather than returning guidance. -/
theorem c9_reply_silent_fallback_witness :
    handle_reply_request env0 gSample "reply" Params.empty none =
      .ok (reply_draft_response env0 em1 Params.empty) := by
  have h := c9_reply_silent_fallback env0 gSample "reply" Params.empty
    (by decide) (by decide) rfl
  exact h.trans (by rfl)

/-! ## C7 — numeric extraction: recognizers and their priority order -/

/-- Counterexample to C7 as stated: in "email 3 #2" the first textual
match is "email 3" (at offset 0, before "#2" at offset 8), so a
first-textual-match rule would yield 3; the code tries the #N pattern
before the "email N" pattern and returns 2. -/
theorem c7_counterexample_first_textual_match :
    extract_email_number "email 3 #2" = some 2 ∧
    extract_email_number "email 3 #2" ≠ some 3 := by
  constructor
  · decide
  · decide

/-- C7 (amended): extract_email_number recognizes #N, "number N",
"email N", "message N" and the spelled words first..fifth, one..five;
pattern checks precede word checks; the patterns are tried in the fixed
order #N, number, email, message — the first pattern in that order that
matches anywhere wins (leftmost occurrence of that pattern), even when
another pattern matches earlier in the text; the words are substring
tests tried in the fixed order first, second, third, fourth, fifth, one,
two, three, four, five, the first word present winning regardless of
textual position. -/
theorem c7_numeric_extraction_amended :
    extract_email_number "#4" = some 4 ∧
    extract_email_number "show number 12" = some 12 ∧
    extract_email_number "delete email 2" = some 2 ∧
    extract_email_number "open message 5" = some 5 ∧
    extract_email_number "reply to the first" = some 1 ∧
    extract_email_number "the second" = some 2 ∧
    extract_email_number "the third" = some 3 ∧
    extract_email_number "the fourth" = some 4 ∧
    extract_email_number "the fifth" = some 5 ∧
    extract_email_number "pick two" = some 2 ∧
    extract_email_number "pick three" = some 3 ∧
    extract_email_number "pick four" = some 4 ∧
    extract_email_number "pick five" = some 5 ∧
    extract_email_number "message 4 #9" = some 9 ∧
    extract_email_number "number 7 email 3" = some 7 ∧
    extract_email_number "first email 6" = some 6 ∧
    extract_email_number "the one and the second" = some 2 ∧
    extract_email_number "someone wrote" = some 1 ∧
    extract_email_number "hello there" = none := by
  repeat constructor <;> decide

/-! ## C3 — helper lemmas about replacement and stripping -/

/-- Scanning a region free of the pattern head leaves it unchanged and
consumes exactly its length of fuel. -/
theorem replaceFromAux_skip (c0 : Char) (p rep : List Char) (l : List Char)
    (hl : ∀ c ∈ l, c ≠ c0) :
    ∀ (f : Nat) (tail : List Char),
      replaceFromAux (c0 :: p) rep (l.length + f) (l ++ tail) =
        l ++ replaceFromAux (c0 :: p) rep f tail := by
  induction l with
  | nil => intro f tail; simp
  | cons a l' ih =>
    intro f tail
    have ha : a ≠ c0 := hl a (List.mem_cons_self a l')
    have harith : (a :: l').length + f = (l'.length + f) + 1 := by
      simp [List.length_cons]; omega
    rw [harith]
    show replaceFromAux (c0 :: p) rep ((l'.length + f) + 1) (a :: (l' ++ tail)) = _
    rw [replaceFromAux]
    rw [if_neg]
    · rw [ih (fun c hc => hl c (List.mem_cons_of_mem a hc)) f tail]
      rfl
    · rintro ⟨-, h2⟩
      simp only [List.isPrefixOf, Bool.and_eq_true, beq_iff_eq] at h2
      exact ha h2.1.symm

/-- A match at the head replaces the pattern and continues after it. -/
theorem replaceFromAux_head_match (c0 : Char) (p rep tail : List Char) (f : Nat) :
    replaceFromAux (c0 :: p) rep (f + 1) ((c0 :: p) ++ tail) =
      rep ++ replaceFromAux (c0 :: p) rep f tail := by
  show replaceFromAux (c0 :: p) rep (f + 1) (c0 :: (p ++ tail)) = _
  rw [replaceFromAux]
  rw [if_pos]
  · have hdrop : (p ++ tail).drop ((c0 :: p).length - 1) = tail := by
      simp [List.length_cons]
    rw [hdrop]
  · constructor
    · simp
    · exact List.isPrefixOf_iff_prefix.mpr (List.prefix_append (c0 :: p) tail)

/-- Stripping ignores a leading whitespace character. -/
theorem pyStrip_cons_ws (c : Char) (l : List Char) (h : c.isWhitespace) :
    pyStrip (c :: l) = pyStrip l := by
  simp [pyStrip, List.dropWhile_cons, h]

/-- Stripping ignores a trailing whitespace character. -/
theorem pyStrip_append_ws (l : List Char) (c : Char) (h : c.isWhitespace) :
    pyStrip (l ++ [c]) = pyStrip l := by
  induction l with
  | nil => simp [pyStrip, List.dropWhile_cons, h]
  | cons a l' ih =>
    by_cases ha : a.isWhitespace
    · rw [show (a :: l') ++ [c] = a :: (l' ++ [c]) from rfl,
        pyStrip_cons_ws a _ ha, pyStrip_cons_ws a _ ha]
      exact ih
    · simp [pyStrip, List.dropWhile_cons, ha, h, List.reverse_append]

/-- A list with non-whitespace characters at both ends strips to itself. -/
theorem pyStrip_eq_self_of_ends (a b : Char) (mid : List Char)
    (hA : ¬ a.isWhitespace) (hB : ¬ b.isWhitespace) :
    pyStrip (a :: (mid ++ [b])) = a :: (mid ++ [b]) := by
  simp [pyStrip, List.dropWhile_cons, hA, hB, List.reverse_append]

/-- Cleanup of a json-fenced model response: for any payload free of
backticks, the fence opener and closer are removed and the payload is
stripped of surrounding whitespace. -/
theorem clean_model_json_fenced (s : List Char) (hs : ∀ c ∈ s, c ≠ '`') :
    clean_model_json (String.mk ("```json\n".toList ++ (s ++ "\n```".toList))) =
      String.mk (pyStrip s) := by
  have hl1 : ∀ c ∈ '\n' :: (s ++ ['\n']), c ≠ '`' := by
    intro c hc
    rcases List.mem_cons.mp hc with rfl | hc2
    · decide
    · rcases List.mem_append.mp hc2 with h | h
      · exact hs c h
      · rcases List.mem_singleton.mp h with rfl
        decide
  have hT1 : ('\n' :: (s ++ "\n```".toList)) =
      ('\n' :: (s ++ ['\n'])) ++ "```".toList := by
    show '\n' :: (s ++ (['\n'] ++ "```".toList)) = _
    simp [List.append_assoc]
  have h1 : pyStrip ("```json\n".toList ++ (s ++ "\n```".toList)) =
      "```json\n".toList ++ (s ++ "\n```".toList) := by
    have hA : "```json\n".toList ++ (s ++ "\n```".toList) =
        '`' :: (("``json\n".toList ++ (s ++ "\n``".toList)) ++ ['`']) := by
      show ('`' :: "``json\n".toList) ++ (s ++ ("\n``".toList ++ ['`'])) = _
      simp [List.append_assoc]
    rw [hA]
    exact pyStrip_eq_self_of_ends '`' '`' _ (by decide) (by decide)
  have h2 : replaceFrom "```json".toList []
      ("```json\n".toList ++ (s ++ "\n```".toList)) =
      '\n' :: (s ++ "\n```".toList) := by
    have hsplit : "```json\n".toList ++ (s ++ "\n```".toList) =
        "```json".toList ++ ('\n' :: (s ++ "\n```".toList)) := by
      show ("```json".toList ++ ['\n']) ++ (s ++ "\n```".toList) = _
      simp [List.append_assoc]
    rw [replaceFrom, hsplit]
    have l7 : ("```json".toList).length = 7 := rfl
    have l4 : ("\n```".toList).length = 4 := rfl
    have hlen : ("```json".toList ++ ('\n' :: (s ++ "\n```".toList))).length =
        (('\n' :: (s ++ "\n```".toList)).length + 6) + 1 := by
      simp [List.length_append, List.length_cons, l7, l4]
    rw [hlen]
    rw [show ("```json".toList : List Char) = '`' :: "``json".toList from rfl]
    rw [replaceFromAux_head_match]
    have hfuel : ('\n' :: (s ++ "\n```".toList)).length + 6 =
        ('\n' :: (s ++ ['\n'])).length + 9 := by
      simp [List.length_cons, List.length_append, l4]
    rw [hfuel, hT1]
    rw [replaceFromAux_skip '`' "``json".toList [] ('\n' :: (s ++ ['\n'])) hl1 9
      "```".toList]
    rw [show replaceFromAux ('`' :: "``json".toList) [] 9 "```".toList =
        "```".toList from by decide]
    simp
  have h3 : replaceFrom "```".toList [] ('\n' :: (s ++ "\n```".toList)) =
      '\n' :: (s ++ ['\n']) := by
    rw [replaceFrom]
    have l4 : ("\n```".toList).length = 4 := rfl
    have hfuel : ('\n' :: (s ++ "\n```".toList)).length =
        ('\n' :: (s ++ ['\n'])).length + 3 := by
      simp [List.length_cons, List.length_append, l4]
    rw [hfuel, hT1]
    rw [show ("```".toList : List Char) = '`' :: "``".toList from rfl]
    rw [replaceFromAux_skip '`' "``".toList [] ('\n' :: (s ++ ['\n'])) hl1 3
      ('`' :: "``".toList)]
    rw [show replaceFromAux ('`' :: "``".toList) [] 3 ('`' :: "``".toList) = []
      from by decide]
    simp
  have h4 : pyStrip ('\n' :: (s ++ ['\n'])) = pyStrip s := by
    rw [pyStrip_cons_ws _ _ (by decide), pyStrip_append_ws _ _ (by decide)]
  show String.mk (pyStrip (replaceFrom "```".toList []
    (replaceFrom "```json".toList []
      (pyStrip (String.mk ("```json\n".toList ++ (s ++ "\n```".toList))).toList)))) = _
  rw [show (String.mk ("```json\n".toList ++ (s ++ "\n```".toList))).toList =
      "```json\n".toList ++ (s ++ "\n```".toList) from rfl]
  rw [h1, h2, h3, h4]

/-! ## C3 — classifier fallback -/

/-- Counterexample to C3 as stated: when parsing fails, the code default
is not exactly the structure the claim names — the parameters object
also carries a count key set to 5 (gemini_service.py lines 153-159), so
the returned value differs from the claimed default. -/
theorem c3_counterexample_default_has_count :
    parse_command (fun _ => none) (some "not json") "hello" ≠
      spec_parse_default "hello" := by
  intro h
  have h2 : parse_command_default "hello" = spec_parse_default "hello" := h
  have h3 := congrArg (fun j => (j.lookupKey "parameters").map Json.topKeys) h2
  exact absurd h3 (by decide)

/-- C3 (amended): parse_command never raises and behaves as follows: on a
model-call failure it returns the code default (action unknown,
parameters carrying count 5 and the original text under query); on a
json.loads failure of the cleaned response it returns the same default;
and a response wrapped in json code fences is transparently unwrapped —
for any backtick-free payload, the parse runs on the stripped payload and
its result (or, if it fails, the default) is returned. -/
theorem c3_classifier_fallback_amended :
    (∀ (jsonParse : String → Option Json) (user_input : String),
      parse_command jsonParse none user_input = parse_command_default user_input) ∧
    (∀ (jsonParse : String → Option Json) (user_input text : String),
      jsonParse (clean_model_json text) = none →
      parse_command jsonParse (some text) user_input =
        parse_command_default user_input) ∧
    (∀ (jsonParse : String → Option Json) (user_input : String) (s : List Char),
      (∀ c ∈ s, c ≠ '`') →
      parse_command jsonParse
        (some (String.mk ("```json\n".toList ++ (s ++ "\n```".toList))))
        user_input =
        match jsonParse (String.mk (pyStrip s)) with
        | some parsed => parsed
        | none => parse_command_default user_input) := by
  refine ⟨fun jp u => rfl, fun jp u t h => by simp [parse_command, h], ?_⟩
  intro jp u s hs
  simp only [parse_command, clean_model_json_fenced s hs]

/-- Witness for C3 (amended), third conjunct: a fenced payload "ok" is
unwrapped and handed to the parser, whose output is returned. -/
theorem c3_classifier_fallback_amended_witness :
    parse_command
      (fun str => if str = "ok" then some (Json.str "parsed") else none)
      (some (String.mk ("```json\n".toList ++ ("ok".toList ++ "\n```".toList))))
      "hi" =
      match (fun str => if str = "ok" then some (Json.str "parsed") else none)
        (String.mk (pyStrip "ok".toList)) with
      | some parsed => parsed
      | none => parse_command_default "hi" :=
  c3_classifier_fallback_amended.2.2 _ "hi" "ok".toList (by decide)

/-! ## C4 — helper lemmas: every handler content is non-empty -/

/-- A string with a non-empty left part is non-empty. -/
theorem append_ne_empty (a b : String) (ha : a ≠ "") : a ++ b ≠ "" := by
  intro h
  apply ha
  have h2 := congrArg String.data h
  rw [String.data_append] at h2
  have h3 : a.data = [] := (List.append_eq_nil.mp h2).1
  cases a
  simp_all

/-- One drafting step never erases the accumulated content. -/
theorem gen_replies_step_content_ne (env : Env) (g : Gmail)
    (acc : String × List DisplayEmail × List ActionItem) (p : Nat × DisplayEmail)
    (h : acc.1 ≠ "") : (gen_replies_step env g acc p).1 ≠ "" := by
  unfold gen_replies_step
  dsimp only
  repeat' split
  all_goals try dsimp only
  all_goals try exact h
  all_goals (repeat apply append_ne_empty)
  all_goals exact h

/-- The drafting loop never erases the accumulated content. -/
theorem gen_replies_fold_content_ne (env : Env) (g : Gmail)
    (l : List (Nat × DisplayEmail)) :
    ∀ acc, acc.1 ≠ "" → ((l.foldl (gen_replies_step env g) acc).1) ≠ "" := by
  induction l with
  | nil => exact fun _ h => h
  | cons p t ih =>
    intro acc h
    rw [List.foldl_cons]
    exact ih _ (gen_replies_step_content_ne env g acc p h)

/-- The reply-draft response content is non-empty. -/
theorem reply_draft_response_content_ne (env : Env) (target : RawEmail)
    (params : Params) : (reply_draft_response env target params).content ≠ "" := by
  unfold reply_draft_response create_response
  dsimp only
  repeat apply append_ne_empty
  decide

/-- handle_read_emails only produces non-empty content. -/
theorem handle_read_emails_content_ne (env : Env) (g : Gmail) (params : Params)
    (r : Response) (h : handle_read_emails env g params = .ok r) :
    r.content ≠ "" := by
  unfold handle_read_emails at h
  dsimp only at h
  repeat' split at h
  all_goals first
    | exact Except.noConfusion h
    | (obtain rfl := Except.ok.inj h
       first
         | decide
         | ((repeat apply append_ne_empty); decide))

/-- handle_search_emails only produces non-empty content. -/
theorem handle_search_emails_content_ne (env : Env) (g : Gmail) (params : Params)
    (r : Response) (h : handle_search_emails env g params = .ok r) :
    r.content ≠ "" := by
  unfold handle_search_emails at h
  dsimp only at h
  repeat' split at h
  all_goals first
    | exact Except.noConfusion h
    | exact handle_read_emails_content_ne env g _ r h
    | (obtain rfl := Except.ok.inj h
       first
         | decide
         | ((repeat apply append_ne_empty); decide))

/-- handle_categorize_emails only produces non-empty content. -/
theorem handle_categorize_emails_content_ne (env : Env) (g : Gmail)
    (params : Params) (r : Response)
    (h : handle_categorize_emails env g params = .ok r) : r.content ≠ "" := by
  unfold handle_categorize_emails at h
  dsimp only at h
  repeat' split at h
  all_goals first
    | exact Except.noConfusion h
    | (obtain rfl := Except.ok.inj h
       first
         | decide
         | ((repeat apply append_ne_empty); decide))

/-- handle_daily_digest only produces non-empty content. -/
theorem handle_daily_digest_content_ne (env : Env) (g : Gmail) (params : Params)
    (r : Response) (h : handle_daily_digest env g params = .ok r) :
    r.content ≠ "" := by
  unfold handle_daily_digest at h
  dsimp only at h
  repeat' split at h
  all_goals first
    | exact Except.noConfusion h
    | (obtain rfl := Except.ok.inj h
       first
         | decide
         | ((repeat apply append_ne_empty); decide))

/-- handle_generate_all_replies only produces non-empty content. -/
theorem handle_generate_all_replies_content_ne (env : Env) (g : Gmail)
    (payload : Payload) (r : Response)
    (h : handle_generate_all_replies env g payload = .ok r) : r.content ≠ "" := by
  unfold handle_generate_all_replies at h
  dsimp only at h
  repeat' split at h
  all_goals obtain rfl := Except.ok.inj h
  all_goals first
    | decide
    | exact gen_replies_fold_content_ne env g _ _ (by decide)

/-- handle_reply_request only produces non-empty content. -/
theorem handle_reply_request_content_ne (env : Env) (g : Gmail) (msg : String)
    (params : Params) (eid : Option String) (r : Response)
    (h : handle_reply_request env g msg params eid = .ok r) : r.content ≠ "" := by
  unfold handle_reply_request at h
  dsimp only at h
  repeat' split at h
  all_goals first
    | exact Except.noConfusion h
    | exact handle_generate_all_replies_content_ne env g _ r h
    | (obtain rfl := Except.ok.inj h
       first
         | decide
         | exact reply_draft_response_content_ne env _ params)

/-- handle_delete_request only produces non-empty content. -/
theorem handle_delete_request_content_ne (env : Env) (g : Gmail) (msg : String)
    (params : Params) (r : Response)
    (h : handle_delete_request env g msg params = .ok r) : r.content ≠ "" := by
  unfold handle_delete_request at h
  dsimp only at h
  repeat' split at h
  all_goals first
    | exact Except.noConfusion h
    | (obtain rfl := Except.ok.inj h
       first
         | decide
         | ((repeat apply append_ne_empty); decide))

/-- handle_send_reply only produces non-empty content. -/
theorem handle_send_reply_content_ne (g : Gmail) (email_id : String)
    (payload : Payload) (r : Response)
    (h : (handle_send_reply g email_id payload).1 = .ok r) : r.content ≠ "" := by
  unfold handle_send_reply at h
  dsimp only at h
  repeat' split at h
  all_goals first
    | exact Except.noConfusion h
    | (obtain rfl := Except.ok.inj h
       first
         | decide
         | ((repeat apply append_ne_empty); decide))

/-- handle_delete_email only produces non-empty content. -/
theorem handle_delete_email_content_ne (g : Gmail) (email_id : String)
    (r : Response) (h : (handle_delete_email g email_id).1 = .ok r) :
    r.content ≠ "" := by
  unfold handle_delete_email at h
  repeat' split at h
  all_goals obtain rfl := Except.ok.inj h
  all_goals first
    | decide
    | ((repeat apply append_ne_empty); decide)

/-! ## C4 — the response envelope invariant -/

/-- C4: the emails and actions fields of every envelope are present lists
(create_response maps absent sequences to empty lists, so no envelope
ever lacks them), and each of the nine message-intent and action handlers
only ever produces envelopes whose content is a non-empty string. -/
theorem c4_envelope_invariant :
    (∀ (c : String), (create_response c none none).emails = [] ∧
      (create_response c none none).actions = []) ∧
    (∀ (env : Env) (g : Gmail) (params : Params) (r : Response),
      handle_read_emails env g params = .ok r → r.content ≠ "") ∧
    (∀ (env : Env) (g : Gmail) (params : Params) (r : Response),
      handle_search_emails env g params = .ok r → r.content ≠ "") ∧
    (∀ (env : Env) (g : Gmail) (params : Params) (r : Response),
      handle_categorize_emails env g params = .ok r → r.content ≠ "") ∧
    (∀ (env : Env) (g : Gmail) (params : Params) (r : Response),
      handle_daily_digest env g params = .ok r → r.content ≠ "") ∧
    (∀ (env : Env) (g : Gmail) (msg : String) (params : Params)
      (eid : Option String) (r : Response),
      handle_reply_request env g msg params eid = .ok r → r.content ≠ "") ∧
    (∀ (env : Env) (g : Gmail) (payload : Payload) (r : Response),
      handle_generate_all_replies env g payload = .ok r → r.content ≠ "") ∧
    (∀ (env : Env) (g : Gmail) (msg : String) (params : Params) (r : Response),
      handle_delete_request env g msg params = .ok r → r.content ≠ "") ∧
    (∀ (g : Gmail) (email_id : String) (payload : Payload) (r : Response),
      (handle_send_reply g email_id payload).1 = .ok r → r.content ≠ "") ∧
    (∀ (g : Gmail) (email_id : String) (r : Response),
      (handle_delete_email g email_id).1 = .ok r → r.content ≠ "") :=
  ⟨fun _ => ⟨rfl, rfl⟩,
   fun env g params r h => handle_read_emails_content_ne env g params r h,
   fun env g params r h => handle_search_emails_content_ne env g params r h,
   fun env g params r h => handle_categorize_emails_content_ne env g params r h,
   fun env g params r h => handle_daily_digest_content_ne env g params r h,
   fun env g msg params eid r h =>
     handle_reply_request_content_ne env g msg params eid r h,
   fun env g payload r h =>
     handle_generate_all_replies_content_ne env g payload r h,
   fun env g msg params r h => handle_delete_request_content_ne env g msg params r h,
   fun g email_id payload r h => handle_send_reply_content_ne g email_id payload r h,
   fun g email_id r h => handle_delete_email_content_ne g email_id r h⟩

/-- Witness for C4 on a concrete delete outcome of the healthy provider. -/
theorem c4_envelope_invariant_witness :
    (create_response "âœ… Email permanently deleted successfully!" none
      none).content ≠ "" :=
  c4_envelope_invariant.2.2.2.2.2.2.2.2.2 gSample "e1"
    (create_response "âœ… Email permanently deleted successfully!" none none) rfl

end EmailAssistant
